import Mathlib

/-!
Shallow embedding of the openrelik-worker-chopchopgo task module
(`src/tasks.py`): configuration resolution (output format, target, rules
path), subprocess invocation, and output-artifact packaging, together with
theorems settling the frozen claims about it.

Python dynamic values relevant to the task configuration are embedded as
`PyVal` (null, string, or list); external collaborators (file acquisition,
output-file allocation, subprocess execution) are embedded as an explicit
`World` record of oracle functions, and the filesystem seen by
`Path.is_dir` as a predicate `String → Bool`.
-/

/-- Python value shape of a task-configuration entry: `None`, a string, or
a (possibly nested) list. -/
inductive PyVal where
  | none
  | str (s : String)
  | list (l : List PyVal)

/-- Embeds `_first_value` (tasks.py line 92): unwrap the first element of a
list, `None` for an empty list, identity otherwise. -/
def _first_value : PyVal → PyVal
  | PyVal.list [] => PyVal.none
  | PyVal.list (x :: _) => x
  | v => v

/-- Python truthiness for the embedded values: `None` and empty strings and
empty lists are falsy. -/
def pyTruthy : PyVal → Bool
  | PyVal.none => false
  | PyVal.str s => s != ""
  | PyVal.list l => !l.isEmpty

/-- A single-quote character, used when rendering Python repr strings and
the error messages of tasks.py that quote the target or config key. -/
def squote : String := String.singleton (Char.ofNat 39)

mutual

/-- Python `repr` of an embedded value (used by `str` on lists). -/
def pyRepr : PyVal → String
  | PyVal.none => "None"
  | PyVal.str s => squote ++ s ++ squote
  | PyVal.list l => "[" ++ String.intercalate ", " (pyReprList l) ++ "]"

/-- Pointwise `repr` over a list of embedded values. -/
def pyReprList : List PyVal → List String
  | [] => []
  | v :: vs => pyRepr v :: pyReprList vs

end

/-- Python `str()` of an embedded value: identity on strings, `repr`-style
rendering otherwise (as in `str(raw_value)` at tasks.py line 103/119). -/
def pyStr : PyVal → String
  | PyVal.str s => s
  | v => pyRepr v

/-- Python `str.lower()` restricted to ASCII (the only case the task
configuration exercises): lower-case every character. -/
def pyLower (s : String) : String := String.mk (s.data.map Char.toLower)

/-- Python `str.strip()`: drop leading and trailing whitespace. -/
def pyStrip (s : String) : String :=
  String.mk (((s.data.dropWhile Char.isWhitespace).reverse.dropWhile
    Char.isWhitespace).reverse)

/-- Whether `pat` occurs as a contiguous sublist of the second list. -/
def listInfixB (pat : List Char) : List Char → Bool
  | [] => pat.isEmpty
  | c :: rest => pat.isPrefixOf (c :: rest) || listInfixB pat rest

/-- Python substring containment `pat in s` (tasks.py line 238). -/
def pyIn (pat s : String) : Bool := listInfixB pat.data s.data

/-- Substring containment as a proposition: `pat` occurs inside `s`. Used
in theorem conclusions about error-message contents. -/
def containsSub (s pat : String) : Prop := ∃ p q, s = p ++ pat ++ q

/-- Suffix relation on strings, used to state that a resolved rules path
ends in a bundle subpath. -/
def endsWithSub (s suf : String) : Prop := ∃ p, s = p ++ suf

/-- Environment-derived module constants of tasks.py (lines 23-25):
`CHOPCHOPGO_DEFAULT_TARGET`, `CHOPCHOPGO_RULES_DIR`, `CHOPCHOPGO_BINARY`. -/
structure Env where
  DEFAULT_TARGET : String
  DEFAULT_RULES_ROOT : String
  BINARY_PATH : String

/-- Baseline environment: no overriding environment variables set. -/
def defaultEnv : Env := ⟨"syslog", "/opt/chopchopgo/rules", "chopchopgo"⟩

/-- `SUPPORTED_FORMATS` (tasks.py line 21). -/
def SUPPORTED_FORMATS : List String := ["json", "csv"]

/-- `SUPPORTED_TARGETS` (tasks.py line 22). -/
def SUPPORTED_TARGETS : List String := ["syslog", "auditd"]

/-- `TARGET_RULE_SUBPATHS` (tasks.py lines 27-30), with `Path` values
rendered as strings. -/
def TARGET_RULE_SUBPATHS : List (String × String) :=
  [("syslog", "linux/builtin"), ("auditd", "linux/auditd")]

/-- `RULE_BUNDLE_SUBPATHS` (tasks.py lines 31-37). -/
def RULE_BUNDLE_SUBPATHS : List (String × String) :=
  [("linux/builtin", "linux/builtin"),
   ("linux/auditd", "linux/auditd"),
   ("linux/process_creation", "linux/process_creation"),
   ("linux/file_event", "linux/file_event"),
   ("linux/network_connection", "linux/network_connection")]

/-- The task-configuration mapping restricted to the four keys the code
reads; a missing key and a `None` value are both `PyVal.none`, matching
`dict.get`. -/
structure TaskConfig where
  output_format : PyVal
  target : PyVal
  rules_path : PyVal
  rule_bundle : PyVal

/-- The empty task configuration (`task_config or {}`). -/
def emptyConfig : TaskConfig := ⟨PyVal.none, PyVal.none, PyVal.none, PyVal.none⟩

/-- Embeds `_determine_output_format` (tasks.py lines 98-111): unwrap,
`None` gives "json", else strip+lower and keep supported values, falling
back to "json". -/
def _determine_output_format (task_config : Option TaskConfig) : String :=
  match _first_value (task_config.getD emptyConfig).output_format with
  | PyVal.none => "json"
  | v =>
    let configured := pyLower (pyStrip (pyStr v))
    if configured ∈ SUPPORTED_FORMATS then configured else "json"

/-- Embeds `_determine_target` (tasks.py lines 114-129): unwrap, `None` or
blank gives the default target, unsupported values fall back to the
default, supported values are returned (stripped). -/
def _determine_target (env : Env) (task_config : Option TaskConfig) : String :=
  match _first_value (task_config.getD emptyConfig).target with
  | PyVal.none => env.DEFAULT_TARGET
  | v =>
    let target_candidate := pyStrip (pyStr v)
    if target_candidate = "" then env.DEFAULT_TARGET
    else if target_candidate ∈ SUPPORTED_TARGETS then target_candidate
    else env.DEFAULT_TARGET

/-- Python exceptions raised by the embedded code paths. -/
inductive PyError where
  | runtimeError (msg : String)
  | typeError (msg : String)
deriving DecidableEq

/-- Embeds `_resolve_rules_path` (tasks.py lines 132-152). The override is
taken as the raw config value (tasks.py passes `task_config.get("rules_path")`
without `_first_value`); a truthy non-string override makes `Path()` raise
`TypeError`, and a truthy non-string bundle key makes `dict.get` raise
`TypeError` (unhashable), both embedded as `Except.error`. -/
def _resolve_rules_path (env : Env) (fs : String → Bool) (target : String)
    (rules_override : PyVal) (bundle_choice : PyVal) :
    Except PyError (Option String) :=
  if pyTruthy rules_override then
    match rules_override with
    | PyVal.str s => Except.ok (if fs s then some s else Option.none)
    | _ => Except.error (PyError.typeError
        "argument should be a str or an os.PathLike object, not list")
  else
    let fromBundle : Except PyError (Option String) :=
      let bundle_key := _first_value bundle_choice
      if pyTruthy bundle_key then
        match bundle_key with
        | PyVal.str k =>
          match List.lookup k RULE_BUNDLE_SUBPATHS with
          | some subpath =>
            let candidate := env.DEFAULT_RULES_ROOT ++ "/" ++ subpath
            Except.ok (if fs candidate then some candidate else Option.none)
          | Option.none => Except.ok Option.none
        | _ => Except.error (PyError.typeError "unhashable type: list")
      else Except.ok Option.none
    match fromBundle with
    | Except.error e => Except.error e
    | Except.ok (some p) => Except.ok (some p)
    | Except.ok Option.none =>
      let default_subpath := (List.lookup target TARGET_RULE_SUBPATHS).getD "linux/builtin"
      let candidate := env.DEFAULT_RULES_ROOT ++ "/" ++ default_subpath
      Except.ok (if fs candidate then some candidate else Option.none)

/-- Split a character list on a separator character; always returns at
least one (possibly empty) piece. -/
def splitOnChar (c : Char) : List Char → List (List Char)
  | [] => [[]]
  | x :: xs =>
    let r := splitOnChar c xs
    if x = c then [] :: r
    else
      match r with
      | [] => [[x]]
      | h :: t => (x :: h) :: t

/-- Embeds `pathlib.Path(...).name`: the last path component after
splitting on "/", with empty and "." components dropped. -/
def pathName (s : String) : String :=
  String.mk ((((splitOnChar (Char.ofNat 47) s.data).filter
    (fun c => c != [] && c != [Char.ofNat 46])).getLastD []))

/-- Index of the last occurrence of character `c` in `s` (Python `rfind`),
or `none` when `c` does not occur. -/
def lastIdxOf (c : Char) (s : String) : Option Nat :=
  (((s.data.enum).filter (fun ic => ic.2 == c)).map (fun ic => ic.1)).getLast?

/-- Embeds `pathlib.Path(...).stem`: the name with its final suffix
removed, where a suffix is a dot strictly inside the name (not at index 0
and not at the final position). -/
def pathStem (s : String) : String :=
  let name := pathName s
  match lastIdxOf (Char.ofNat 46) name with
  | some i =>
    if 0 < i ∧ i < name.length - 1 then String.mk (name.data.take i) else name
  | Option.none => name

/-- An input-file descriptor as consumed by the loop: the `path` and
`display_name` entries of the dict (absent keys are `none`; blank strings
are possible and falsy). -/
structure InputFile where
  path : Option String
  display_name : Option String
deriving DecidableEq

/-- The handle returned by `create_output_file`: the writable path. -/
structure OutputFile where
  path : String
deriving DecidableEq

/-- The result of `subprocess.run` with `capture_output=True, text=True`. -/
structure ProcResult where
  returncode : Int
  stdout : String
  stderr : String
deriving DecidableEq

/-- One recorded `subprocess.run` invocation: the argument vector and the
keyword flags the code passes (capture_output, text, check). -/
structure SubprocCall where
  argv : List String
  capture_output : Bool
  text : Bool
  check : Bool
deriving DecidableEq

/-- One recorded `create_output_file` invocation: output path argument,
display name, extension, and data type. -/
structure AllocCall where
  output_path : Option String
  display_name : String
  extension : String
  data_type : String
deriving DecidableEq

/-- One recorded `task-progress` event: current index, total, message. -/
structure ProgressEvent where
  current : Nat
  total : Nat
  message : String
deriving DecidableEq

/-- The external collaborators of `analyze_logs`: file acquisition,
output-file allocation, and subprocess execution. -/
structure World where
  getInputFiles : Option String → List InputFile → List InputFile
  createOutputFile : Option String → String → String → String → OutputFile
  run : List String → ProcResult

/-- Mutable state accumulated by the per-file loop of `analyze_logs`:
the observable effect trace (allocations, subprocess calls, file writes,
progress events), the collected `output_files`, and the `command` variable
left over from the most recent non-skipped iteration. -/
structure LoopAcc where
  allocs : List AllocCall
  subprocCalls : List SubprocCall
  writes : List (String × String)
  events : List ProgressEvent
  output_files : List OutputFile
  lastCommand : Option (List String)
deriving DecidableEq

/-- The loop state at entry of `analyze_logs`. -/
def emptyAcc : LoopAcc := ⟨[], [], [], [], [], Option.none⟩

/-- The metadata dict of the task result (tasks.py lines 276-280). -/
structure TaskMeta where
  output_format : String
  target : String
  rules_path : String
deriving DecidableEq

/-- The payload handed to `create_task_result` (tasks.py lines 272-281). -/
structure TaskResult where
  output_files : List OutputFile
  workflow_id : Option String
  command : String
  meta : TaskMeta
deriving DecidableEq

deriving instance DecidableEq for Except

/-- Observable outcome of a task run: the effect trace and either the
result payload or the raised exception. -/
structure RunOutcome where
  trace : LoopAcc
  result : Except PyError TaskResult
deriving DecidableEq

/-- The argument vector built at tasks.py lines 213-223. -/
def mkCommand (env : Env) (target rules_path file_path output_format : String) :
    List String :=
  [env.BINARY_PATH, "-target", target, "-rules", rules_path,
   "-file", file_path, "-out", output_format]

/-- The parse-failure diagnosis raised at tasks.py lines 239-243. -/
def parseFailureMessage (target : String) : String :=
  "ChopChopGo could not parse the input log format. Verify the selected target (currently " ++
    squote ++ target ++ squote ++
    ") matches the log type or supply a compatible ruleset."

/-- The generic non-zero-exit error raised at tasks.py lines 245-247. -/
def genericExitMessage (returncode : Int) (display_name : String) : String :=
  "ChopChopGo exited with code " ++ toString returncode ++
    " while processing " ++ display_name

/-- The display name computed at tasks.py line 203:
`input_file.get("display_name") or Path(file_path).name`. -/
def fileDisplayName (f : InputFile) (file_path : String) : String :=
  match f.display_name with
  | some d => if d = "" then pathName file_path else d
  | Option.none => pathName file_path

/-- Whether an input entry has a truthy path (tasks.py lines 198-201
process it; otherwise it is skipped with a warning). -/
def hasPath (f : InputFile) : Bool :=
  match f.path with
  | some p => p != ""
  | Option.none => false

/-- Embeds the per-file loop of `analyze_logs` (tasks.py lines 197-263):
skip entries without a path; otherwise allocate an output file, run the
subprocess, classify non-zero exits into raised errors, and on success
write stdout to the artifact, collect its descriptor, and emit a progress
event. Returns the final loop state and the raised error, if any. -/
def processFiles (env : Env) (w : World) (output_path : Option String)
    (target rules_path output_format : String) (total : Nat) :
    List InputFile → Nat → LoopAcc → LoopAcc × Option PyError
  | [], _, _acc => (_acc, Option.none)
  | f :: rest, index, acc =>
    match f.path with
    | Option.none =>
      processFiles env w output_path target rules_path output_format total
        rest (index + 1) acc
    | some file_path =>
      if file_path = "" then
        processFiles env w output_path target rules_path output_format total
          rest (index + 1) acc
      else
        let display_name := fileDisplayName f file_path
        let output_display_name := pathStem display_name ++ "_chopchopgo"
        let data_type := "openrelik:chopchopgo:" ++ output_format
        let output_file :=
          w.createOutputFile output_path output_display_name output_format data_type
        let command := mkCommand env target rules_path file_path output_format
        let result := w.run command
        let acc1 : LoopAcc :=
          ⟨acc.allocs ++ [⟨output_path, output_display_name, output_format, data_type⟩],
           acc.subprocCalls ++ [⟨command, true, true, false⟩],
           acc.writes, acc.events, acc.output_files, acc.lastCommand⟩
        if result.returncode ≠ 0 then
          let error_output :=
            if result.stderr ≠ "" then result.stderr
            else if result.stdout ≠ "" then result.stdout
            else ""
          if pyIn "Failed to match timestamp" error_output then
            (acc1, some (PyError.runtimeError (parseFailureMessage target)))
          else
            (acc1, some (PyError.runtimeError
              (genericExitMessage result.returncode display_name)))
        else
          let output_data := if result.stdout = "" then "" else result.stdout
          let acc2 : LoopAcc :=
            ⟨acc1.allocs, acc1.subprocCalls,
             acc1.writes ++ [(output_file.path, output_data)],
             acc1.events ++ [⟨index, total, "Processed " ++ display_name⟩],
             acc1.output_files ++ [output_file],
             some command⟩
          processFiles env w output_path target rules_path output_format total
            rest (index + 1) acc2

/-- Error message raised when file acquisition yields nothing
(tasks.py line 178). -/
def noInputsMessage : String := "No compatible input files provided to ChopChopGo"

/-- Error message raised when no rules directory resolves
(tasks.py lines 189-191). -/
def noRulesMessage : String :=
  "Unable to locate rules directory. Select a bundled rule directory or provide " ++
    squote ++ "rules_path" ++ squote ++ "."

/-- Error message raised when the loop produced no artifacts
(tasks.py line 266). -/
def noOutputsMessage : String := "ChopChopGo did not produce any outputs"

/-- Embeds the task `analyze_logs` (tasks.py lines 164-281): acquire input
files, resolve the configuration, fail fast on missing inputs or rules,
run the per-file loop, and package the result. -/
def analyze_logs (env : Env) (fs : String → Bool) (w : World)
    (pipe_result : Option String) (input_files : Option (List InputFile))
    (output_path : Option String) (workflow_id : Option String)
    (task_config : Option TaskConfig) : RunOutcome :=
  let files := w.getInputFiles pipe_result (input_files.getD [])
  if files = [] then
    ⟨emptyAcc, Except.error (PyError.runtimeError noInputsMessage)⟩
  else
    let output_format := _determine_output_format task_config
    let target := _determine_target env task_config
    let cfg := task_config.getD emptyConfig
    match _resolve_rules_path env fs target cfg.rules_path cfg.rule_bundle with
    | Except.error e => ⟨emptyAcc, Except.error e⟩
    | Except.ok Option.none =>
      ⟨emptyAcc, Except.error (PyError.runtimeError noRulesMessage)⟩
    | Except.ok (some rules_path) =>
      let total := files.length
      match processFiles env w output_path target rules_path output_format total
          files 1 emptyAcc with
      | (acc, some e) => ⟨acc, Except.error e⟩
      | (acc, Option.none) =>
        if acc.output_files = [] then
          ⟨acc, Except.error (PyError.runtimeError noOutputsMessage)⟩
        else
          ⟨acc, Except.ok ⟨acc.output_files, workflow_id,
            String.intercalate " " (acc.lastCommand.getD []),
            ⟨output_format, target, rules_path⟩⟩⟩

/-- The per-target default candidate directory of `_resolve_rules_path`
(tasks.py lines 149-150): the mapped subpath of the target, or the generic
`linux/builtin` for an unmapped target, under the rules root. -/
def targetDefaultCandidate (env : Env) (target : String) : String :=
  env.DEFAULT_RULES_ROOT ++ "/" ++
    (List.lookup target TARGET_RULE_SUBPATHS).getD "linux/builtin"

/-- C1: rules-path resolution follows the stated precedence: a non-blank
explicit override is used iff it is an existing directory and a missing
override yields no path regardless of any valid bundle or default; absent
an override, a mapped bundle key whose directory exists yields that
directory (which ends in the bundle subpath); a mapped bundle whose
directory is missing, an unmapped bundle key, and an absent bundle all
fall back to the per-target default candidate, used only if it exists,
and otherwise resolution returns no path. -/
theorem C1_rules_path_precedence (env : Env) (fs : String → Bool)
    (target k s : String) (bundle : PyVal) :
    (s ≠ "" → _resolve_rules_path env fs target (PyVal.str s) bundle =
       Except.ok (if fs s then some s else Option.none)) ∧
    (∀ sub, List.lookup k RULE_BUNDLE_SUBPATHS = some sub →
       fs (env.DEFAULT_RULES_ROOT ++ "/" ++ sub) = true →
       _resolve_rules_path env fs target PyVal.none (PyVal.str k) =
         Except.ok (some (env.DEFAULT_RULES_ROOT ++ "/" ++ sub)) ∧
       endsWithSub (env.DEFAULT_RULES_ROOT ++ "/" ++ sub) sub) ∧
    (∀ sub, List.lookup k RULE_BUNDLE_SUBPATHS = some sub →
       fs (env.DEFAULT_RULES_ROOT ++ "/" ++ sub) = false →
       _resolve_rules_path env fs target PyVal.none (PyVal.str k) =
         Except.ok (if fs (targetDefaultCandidate env target)
                    then some (targetDefaultCandidate env target)
                    else Option.none)) ∧
    (k ≠ "" → List.lookup k RULE_BUNDLE_SUBPATHS = Option.none →
       _resolve_rules_path env fs target PyVal.none (PyVal.str k) =
         Except.ok (if fs (targetDefaultCandidate env target)
                    then some (targetDefaultCandidate env target)
                    else Option.none)) ∧
    (_resolve_rules_path env fs target PyVal.none PyVal.none =
       Except.ok (if fs (targetDefaultCandidate env target)
                  then some (targetDefaultCandidate env target)
                  else Option.none)) := by
  have hlk : ∀ k : String, List.lookup k RULE_BUNDLE_SUBPATHS ≠ Option.none → k ≠ "" := by
    intro k h he
    subst he
    exact h (by decide)
  refine ⟨fun hs => ?_, fun sub hsub hfs => ?_, fun sub hsub hfs => ?_,
    fun hk hnone => ?_, ?_⟩
  · simp [_resolve_rules_path, pyTruthy, bne_iff_ne, hs]
  · have hk : k ≠ "" := hlk k (by simp [hsub])
    constructor
    · simp [_resolve_rules_path, pyTruthy, _first_value, bne_iff_ne, hk, hsub, hfs]
    · exact ⟨env.DEFAULT_RULES_ROOT ++ "/", rfl⟩
  · have hk : k ≠ "" := hlk k (by simp [hsub])
    simp [_resolve_rules_path, pyTruthy, _first_value, bne_iff_ne, hk, hsub, hfs,
      targetDefaultCandidate]
  · simp [_resolve_rules_path, pyTruthy, _first_value, bne_iff_ne, hk, hnone,
      targetDefaultCandidate]
  · simp [_resolve_rules_path, pyTruthy, _first_value, targetDefaultCandidate]

/-- Filesystem used in the C1 witness: the default-target bundle directory
and a custom directory exist; everything else does not. -/
def fsC1 : String → Bool :=
  fun p => p == "/opt/chopchopgo/rules/linux/builtin" || p == "/custom/rules"

/-- Witness for C1: a non-existent explicit override yields no path even
though the bundle and default directories exist; an existing override is
used; a mapped existing bundle wins over the default; with nothing given
the existing default is used. -/
theorem C1_rules_path_precedence_witness :
    _resolve_rules_path defaultEnv fsC1 "syslog" (PyVal.str "/nope")
      (PyVal.str "linux/builtin") = Except.ok Option.none ∧
    _resolve_rules_path defaultEnv fsC1 "syslog" (PyVal.str "/custom/rules")
      PyVal.none = Except.ok (some "/custom/rules") ∧
    _resolve_rules_path defaultEnv fsC1 "syslog" PyVal.none
      (PyVal.str "linux/builtin") =
      Except.ok (some "/opt/chopchopgo/rules/linux/builtin") ∧
    _resolve_rules_path defaultEnv fsC1 "syslog" PyVal.none PyVal.none =
      Except.ok (some "/opt/chopchopgo/rules/linux/builtin") := by
  refine ⟨?_, ?_, ?_, ?_⟩
  · have h := (C1_rules_path_precedence defaultEnv fsC1 "syslog" ""
      "/nope" (PyVal.str "linux/builtin")).1 (by decide)
    rw [h]; decide
  · have h := (C1_rules_path_precedence defaultEnv fsC1 "syslog" ""
      "/custom/rules" PyVal.none).1 (by decide)
    rw [h]; decide
  · exact ((C1_rules_path_precedence defaultEnv fsC1 "syslog" "linux/builtin"
      "" PyVal.none).2.1 "linux/builtin" (by decide) (by decide)).1
  · have h := (C1_rules_path_precedence defaultEnv fsC1 "syslog" ""
      "" PyVal.none).2.2.2.2
    rw [h]; decide

/-- Counterexample for C3: with a filesystem where `/custom/rules` exists,
the scalar override resolves to it, but the same override wrapped in a
single-element list raises a `TypeError` from `Path()` instead of behaving
identically. -/
theorem C3_counterexample :
    _resolve_rules_path defaultEnv (fun p => p == "/custom/rules") "syslog"
      (PyVal.str "/custom/rules") PyVal.none = Except.ok (some "/custom/rules") ∧
    _resolve_rules_path defaultEnv (fun p => p == "/custom/rules") "syslog"
      (PyVal.list [PyVal.str "/custom/rules"]) PyVal.none =
      Except.error (PyError.typeError
        "argument should be a str or an os.PathLike object, not list") := by
  decide

/-- C3 (amended): single-element-list values are unwrapped and treated
like the bare scalar for `output_format`, `target`, and `rule_bundle`, but
the `rules_path` override is passed to resolution without unwrapping, so a
single-element-list `rules_path` raises a type error instead of behaving
like the scalar. -/
theorem C3_list_unwrap (env : Env) (fs : String → Bool) (t s : String)
    (o rp rb ov : PyVal) :
    (_determine_output_format (some ⟨PyVal.list [PyVal.str s], o, rp, rb⟩) =
       _determine_output_format (some ⟨PyVal.str s, o, rp, rb⟩)) ∧
    (_determine_output_format (some ⟨PyVal.list [PyVal.none], o, rp, rb⟩) =
       _determine_output_format (some ⟨PyVal.none, o, rp, rb⟩)) ∧
    (_determine_target env (some ⟨o, PyVal.list [PyVal.str s], rp, rb⟩) =
       _determine_target env (some ⟨o, PyVal.str s, rp, rb⟩)) ∧
    (_determine_target env (some ⟨o, PyVal.list [PyVal.none], rp, rb⟩) =
       _determine_target env (some ⟨o, PyVal.none, rp, rb⟩)) ∧
    (_resolve_rules_path env fs t ov (PyVal.list [PyVal.str s]) =
       _resolve_rules_path env fs t ov (PyVal.str s)) ∧
    (_resolve_rules_path env fs t ov (PyVal.list [PyVal.none]) =
       _resolve_rules_path env fs t ov PyVal.none) ∧
    (_resolve_rules_path env fs t (PyVal.list [PyVal.str s]) ov =
       Except.error (PyError.typeError
         "argument should be a str or an os.PathLike object, not list")) :=
  ⟨rfl, rfl, rfl, rfl, rfl, rfl, rfl⟩

/-- Counterexample for C4: the value `" csv "` is, after unwrapping and
lower-casing, not in the supported set, so the claim requires the resolved
format to be "json"; the code strips whitespace first and resolves it to
"csv". -/
theorem C4_counterexample :
    pyLower " csv " ∉ SUPPORTED_FORMATS ∧
    _determine_output_format
      (some ⟨PyVal.str " csv ", PyVal.none, PyVal.none, PyVal.none⟩) = "csv" ∧
    ("csv" : String) ≠ "json" := by
  decide

/-- C4 (amended): output-format resolution never fails: a missing
configuration, a null value, and an empty-list value resolve to "json";
a string whose stripped, lower-cased form is unsupported resolves to
"json" (scalar or single-element-list-wrapped); and a string whose
stripped, lower-cased form is supported resolves to exactly that form. -/
theorem C4_output_format_resolution (o rp rb : PyVal) (s : String) :
    _determine_output_format Option.none = "json" ∧
    _determine_output_format (some ⟨PyVal.none, o, rp, rb⟩) = "json" ∧
    _determine_output_format (some ⟨PyVal.list [], o, rp, rb⟩) = "json" ∧
    (pyLower (pyStrip s) ∉ SUPPORTED_FORMATS →
      _determine_output_format (some ⟨PyVal.str s, o, rp, rb⟩) = "json" ∧
      _determine_output_format (some ⟨PyVal.list [PyVal.str s], o, rp, rb⟩) = "json") ∧
    (pyLower (pyStrip s) ∈ SUPPORTED_FORMATS →
      _determine_output_format (some ⟨PyVal.str s, o, rp, rb⟩) = pyLower (pyStrip s) ∧
      _determine_output_format (some ⟨PyVal.list [PyVal.str s], o, rp, rb⟩) =
        pyLower (pyStrip s)) := by
  refine ⟨rfl, rfl, rfl, fun h => ?_, fun h => ?_⟩ <;>
    exact ⟨by simp [_determine_output_format, _first_value, pyStr, h],
           by simp [_determine_output_format, _first_value, pyStr, h]⟩

/-- Witness for C4 (amended): `" CSV "` strips and lowers to a supported
value and resolves to it. -/
theorem C4_output_format_resolution_witness :
    pyLower (pyStrip " CSV ") ∈ SUPPORTED_FORMATS ∧
    _determine_output_format
      (some ⟨PyVal.str " CSV ", PyVal.none, PyVal.none, PyVal.none⟩) =
      pyLower (pyStrip " CSV ") ∧
    _determine_output_format
      (some ⟨PyVal.str "bogus", PyVal.none, PyVal.none, PyVal.none⟩) = "json" :=
  ⟨by decide,
   ((C4_output_format_resolution PyVal.none PyVal.none PyVal.none " CSV ").2.2.2.2
     (by decide)).1,
   ((C4_output_format_resolution PyVal.none PyVal.none PyVal.none "bogus").2.2.2.1
     (by decide)).1⟩

/-- Counterexample for C5: the value `" auditd "` is not in the supported
target set, so the claim requires resolution to return the default target
("syslog"); the code strips whitespace first and returns "auditd". -/
theorem C5_counterexample :
    (" auditd " : String) ∉ SUPPORTED_TARGETS ∧
    _determine_target defaultEnv
      (some ⟨PyVal.none, PyVal.str " auditd ", PyVal.none, PyVal.none⟩) = "auditd" ∧
    ("auditd" : String) ≠ defaultEnv.DEFAULT_TARGET := by
  decide

/-- C5 (amended): target resolution never fails: a missing configuration,
a null value, an empty-list value, and a value that strips to blank all
resolve to the configured default target (baseline "syslog"); a value
whose stripped form is unsupported resolves to the default (scalar or
single-element-list-wrapped); and a value whose stripped form is in the
supported set resolves to that stripped form, so values already in the
supported set are returned unchanged. -/
theorem C5_target_resolution (env : Env) (o rp rb : PyVal) (s : String) :
    defaultEnv.DEFAULT_TARGET = "syslog" ∧
    _determine_target env Option.none = env.DEFAULT_TARGET ∧
    _determine_target env (some ⟨o, PyVal.none, rp, rb⟩) = env.DEFAULT_TARGET ∧
    _determine_target env (some ⟨o, PyVal.list [], rp, rb⟩) = env.DEFAULT_TARGET ∧
    (pyStrip s = "" →
      _determine_target env (some ⟨o, PyVal.str s, rp, rb⟩) = env.DEFAULT_TARGET) ∧
    (pyStrip s ∉ SUPPORTED_TARGETS →
      _determine_target env (some ⟨o, PyVal.str s, rp, rb⟩) = env.DEFAULT_TARGET ∧
      _determine_target env (some ⟨o, PyVal.list [PyVal.str s], rp, rb⟩) =
        env.DEFAULT_TARGET) ∧
    (pyStrip s ∈ SUPPORTED_TARGETS →
      _determine_target env (some ⟨o, PyVal.str s, rp, rb⟩) = pyStrip s ∧
      _determine_target env (some ⟨o, PyVal.list [PyVal.str s], rp, rb⟩) =
        pyStrip s) := by
  refine ⟨rfl, rfl, rfl, rfl, fun h => ?_, fun h => ?_, fun h => ?_⟩
  · simp [_determine_target, _first_value, pyStr, h]
  · by_cases hb : pyStrip s = "" <;>
      exact ⟨by simp [_determine_target, _first_value, pyStr, h, hb],
             by simp [_determine_target, _first_value, pyStr, h, hb]⟩
  · have hb : pyStrip s ≠ "" := by
      intro hb
      rw [hb] at h
      exact absurd h (by decide)
    exact ⟨by simp [_determine_target, _first_value, pyStr, h, hb],
           by simp [_determine_target, _first_value, pyStr, h, hb]⟩

/-- Witness for C5 (amended): `" auditd "` strips to a supported target
and resolves to it; an unsupported value falls back to the default. -/
theorem C5_target_resolution_witness :
    pyStrip " auditd " ∈ SUPPORTED_TARGETS ∧
    _determine_target defaultEnv
      (some ⟨PyVal.none, PyVal.str " auditd ", PyVal.none, PyVal.none⟩) =
      pyStrip " auditd " ∧
    _determine_target defaultEnv
      (some ⟨PyVal.none, PyVal.str "weird", PyVal.none, PyVal.none⟩) =
      defaultEnv.DEFAULT_TARGET :=
  ⟨by decide,
   ((C5_target_resolution defaultEnv PyVal.none PyVal.none PyVal.none " auditd ").2.2.2.2.2.2
     (by decide)).1,
   ((C5_target_resolution defaultEnv PyVal.none PyVal.none PyVal.none "weird").2.2.2.2.2.1
     (by decide)).1⟩

/-- With zero input files the task fails immediately with the no-inputs
error and an empty effect trace (tasks.py lines 176-178). -/
theorem analyze_logs_empty_files (env : Env) (fs : String → Bool) (w : World)
    (pipe : Option String) (inFiles : Option (List InputFile))
    (out wf : Option String) (tc : Option TaskConfig)
    (h : w.getInputFiles pipe (inFiles.getD []) = []) :
    analyze_logs env fs w pipe inFiles out wf tc =
      ⟨emptyAcc, Except.error (PyError.runtimeError noInputsMessage)⟩ := by
  simp [analyze_logs, h]

/-- With input files present but no resolvable rules directory the task
fails with the rules-directory error and an empty effect trace
(tasks.py lines 188-191). -/
theorem analyze_logs_no_rules (env : Env) (fs : String → Bool) (w : World)
    (pipe : Option String) (inFiles : Option (List InputFile))
    (out wf : Option String) (tc : Option TaskConfig)
    (hne : w.getInputFiles pipe (inFiles.getD []) ≠ [])
    (hres : _resolve_rules_path env fs (_determine_target env tc)
      (tc.getD emptyConfig).rules_path (tc.getD emptyConfig).rule_bundle =
      Except.ok Option.none) :
    analyze_logs env fs w pipe inFiles out wf tc =
      ⟨emptyAcc, Except.error (PyError.runtimeError noRulesMessage)⟩ := by
  simp only [analyze_logs]
  rw [if_neg hne, hres]

/-- C7: both precondition failures are fatal and happen before any
subprocess runs: when file acquisition returns zero files, or when no
rules directory resolves, the task raises a runtime error (with the
respective message) and the subprocess trace is empty. -/
theorem C7_precondition_failures (env : Env) (fs : String → Bool) (w : World)
    (pipe : Option String) (inFiles : Option (List InputFile))
    (out wf : Option String) (tc : Option TaskConfig) :
    (w.getInputFiles pipe (inFiles.getD []) = [] →
      (analyze_logs env fs w pipe inFiles out wf tc).result =
        Except.error (PyError.runtimeError noInputsMessage) ∧
      (analyze_logs env fs w pipe inFiles out wf tc).trace.subprocCalls = []) ∧
    (_resolve_rules_path env fs (_determine_target env tc)
        (tc.getD emptyConfig).rules_path (tc.getD emptyConfig).rule_bundle =
        Except.ok Option.none →
      (analyze_logs env fs w pipe inFiles out wf tc).result =
        Except.error (PyError.runtimeError noInputsMessage) ∨
      (analyze_logs env fs w pipe inFiles out wf tc).result =
        Except.error (PyError.runtimeError noRulesMessage)) ∧
    (w.getInputFiles pipe (inFiles.getD []) ≠ [] →
      _resolve_rules_path env fs (_determine_target env tc)
        (tc.getD emptyConfig).rules_path (tc.getD emptyConfig).rule_bundle =
        Except.ok Option.none →
      (analyze_logs env fs w pipe inFiles out wf tc).result =
        Except.error (PyError.runtimeError noRulesMessage) ∧
      (analyze_logs env fs w pipe inFiles out wf tc).trace.subprocCalls = []) := by
  refine ⟨fun h => ?_, fun h => ?_, fun hne h => ?_⟩
  · rw [analyze_logs_empty_files env fs w pipe inFiles out wf tc h]
    exact ⟨rfl, rfl⟩
  · by_cases hne : w.getInputFiles pipe (inFiles.getD []) = []
    · rw [analyze_logs_empty_files env fs w pipe inFiles out wf tc hne]
      exact Or.inl rfl
    · rw [analyze_logs_no_rules env fs w pipe inFiles out wf tc hne h]
      exact Or.inr rfl
  · rw [analyze_logs_no_rules env fs w pipe inFiles out wf tc hne h]
    exact ⟨rfl, rfl⟩

/-- World used in the C7 witness: file acquisition returns nothing. -/
def wC7a : World :=
  ⟨fun _ _ => [], fun _ d e _ => ⟨"/out/" ++ d ++ "." ++ e⟩, fun _ => ⟨0, "", ""⟩⟩

/-- World used in the C7 witness: one input file is returned but no rules
directory exists anywhere. -/
def wC7b : World :=
  ⟨fun _ _ => [⟨some "/logs/a.log", some "a.log"⟩],
   fun _ d e _ => ⟨"/out/" ++ d ++ "." ++ e⟩, fun _ => ⟨0, "", ""⟩⟩

/-- Witness for C7: zero input files raise the no-inputs error with an
empty subprocess trace; an unresolvable rules directory raises the
rules-directory error with an empty subprocess trace. -/
theorem C7_precondition_failures_witness :
    ((analyze_logs defaultEnv (fun _ => false) wC7a Option.none Option.none
        Option.none Option.none Option.none).result =
      Except.error (PyError.runtimeError noInputsMessage) ∧
     (analyze_logs defaultEnv (fun _ => false) wC7a Option.none Option.none
        Option.none Option.none Option.none).trace.subprocCalls = []) ∧
    ((analyze_logs defaultEnv (fun _ => false) wC7b Option.none Option.none
        Option.none Option.none Option.none).result =
      Except.error (PyError.runtimeError noRulesMessage) ∧
     (analyze_logs defaultEnv (fun _ => false) wC7b Option.none Option.none
        Option.none Option.none Option.none).trace.subprocCalls = []) :=
  ⟨(C7_precondition_failures defaultEnv (fun _ => false) wC7a Option.none
      Option.none Option.none Option.none Option.none).1 rfl,
   (C7_precondition_failures defaultEnv (fun _ => false) wC7b Option.none
      Option.none Option.none Option.none Option.none).2.2 (by decide) (by decide)⟩

/-- Loop invariant: every subprocess call recorded by the per-file loop
either was already in the accumulator or is the exact command vector of
tasks.py lines 213-223 for some input file of the batch that has a truthy
path, invoked with capture_output, text, and no check. -/
theorem processFiles_calls_shape (env : Env) (w : World) (out : Option String)
    (tgt rp fmt : String) (total : Nat) :
    ∀ (files : List InputFile) (idx : Nat) (acc : LoopAcc),
      ∀ c ∈ (processFiles env w out tgt rp fmt total files idx acc).1.subprocCalls,
        c ∈ acc.subprocCalls ∨
        ∃ f ∈ files, ∃ p, f.path = some p ∧ p ≠ "" ∧
          c = ⟨mkCommand env tgt rp p fmt, true, true, false⟩ := by
  intro files
  induction files with
  | nil =>
    intro idx acc c hc
    exact Or.inl hc
  | cons f rest ih =>
    intro idx acc c hc
    rcases hfp : f.path with _ | p
    · rw [processFiles, hfp] at hc
      rcases ih (idx + 1) acc c hc with h | ⟨g, hg, hrest⟩
      · exact Or.inl h
      · exact Or.inr ⟨g, List.mem_cons_of_mem f hg, hrest⟩
    · by_cases hp : p = ""
      · rw [processFiles, hfp] at hc
        simp only [hp, if_pos rfl] at hc
        rcases ih (idx + 1) acc c hc with h | ⟨g, hg, hrest⟩
        · exact Or.inl h
        · exact Or.inr ⟨g, List.mem_cons_of_mem f hg, hrest⟩
      · rw [processFiles, hfp] at hc
        simp only [hp, if_neg, ite_false] at hc
        by_cases hrc : (w.run (mkCommand env tgt rp p fmt)).returncode ≠ 0
        · simp only [if_pos hrc] at hc
          rw [apply_ite Prod.fst, ite_self] at hc
          replace hc : c ∈ acc.subprocCalls ++
              [(⟨mkCommand env tgt rp p fmt, true, true, false⟩ : SubprocCall)] := hc
          rcases List.mem_append.1 hc with h | h
          · exact Or.inl h
          · exact Or.inr ⟨f, List.mem_cons_self f rest, p, hfp, hp,
              List.mem_singleton.1 h⟩
        · simp only [if_neg hrc] at hc
          rcases ih (idx + 1) _ c hc with h | ⟨g, hg, hrest⟩
          · rcases List.mem_append.1 h with h2 | h2
            · exact Or.inl h2
            · exact Or.inr ⟨f, List.mem_cons_self f rest, p, hfp, hp,
                List.mem_singleton.1 h2⟩
          · exact Or.inr ⟨g, List.mem_cons_of_mem f hg, hrest⟩

/-- If a list has last element `a`, mapping then taking `getLastD` gives
`f a` regardless of the default. -/
theorem getLastD_map_of_getLast? {α β : Type} (f : α → β) :
    ∀ (l : List α) (a : α) (d : β), l.getLast? = some a →
      (l.map f).getLastD d = f a := by
  intro l
  induction l with
  | nil => intro a d h; simp at h
  | cons x xs ih =>
    intro a d h
    rw [List.map_cons, List.getLastD_cons]
    rcases xs with _ | ⟨y, ys⟩
    · rw [List.getLast?_singleton] at h
      simp only [Option.some.injEq] at h
      subst h
      simp
    · rw [List.getLast?_cons_cons] at h
      exact ih a (f x) h

/-- A conditional with `some` in both branches is never `none`. -/
theorem ite_some_ne_none {α : Type} (c : Prop) [Decidable c] (a b : α) :
    (if c then some a else some b) ≠ Option.none := by
  split <;> simp

/-- Loop invariant: if the per-file loop finishes without raising, every
subprocess call it recorded (beyond the accumulator) returned exit code
zero. -/
theorem processFiles_ok_run_zero (env : Env) (w : World) (out : Option String)
    (tgt rp fmt : String) (total : Nat) :
    ∀ (files : List InputFile) (idx : Nat) (acc : LoopAcc),
      (processFiles env w out tgt rp fmt total files idx acc).2 = Option.none →
      ∀ c ∈ (processFiles env w out tgt rp fmt total files idx acc).1.subprocCalls,
        c ∈ acc.subprocCalls ∨ (w.run c.argv).returncode = 0 := by
  intro files
  induction files with
  | nil =>
    intro idx acc _ c hc
    exact Or.inl hc
  | cons f rest ih =>
    intro idx acc h c hc
    rcases hfp : f.path with _ | p
    · rw [processFiles, hfp] at h hc
      exact ih (idx + 1) acc h c hc
    · by_cases hp : p = ""
      · rw [processFiles, hfp] at h hc
        simp only [hp, if_pos rfl] at h hc
        exact ih (idx + 1) acc h c hc
      · rw [processFiles, hfp] at h hc
        simp only [hp, if_neg, ite_false] at h hc
        by_cases hrc : (w.run (mkCommand env tgt rp p fmt)).returncode ≠ 0
        · exfalso
          simp only [if_pos hrc] at h
          rw [apply_ite Prod.snd] at h
          exact absurd h (ite_some_ne_none _ _ _)
        · simp only [if_neg hrc] at h hc
          rcases ih (idx + 1) _ h c hc with h2 | h2
          · rcases List.mem_append.1 h2 with h3 | h3
            · exact Or.inl h3
            · rw [List.mem_singleton.1 h3]
              exact Or.inr (not_ne_iff.mp hrc)
          · exact Or.inr h2

/-- The subprocess call the loop issues for an input file with a truthy
path. -/
def expectedCall (env : Env) (tgt rp fmt : String) (f : InputFile) : SubprocCall :=
  ⟨mkCommand env tgt rp (f.path.getD "") fmt, true, true, false⟩

/-- Closed form of the per-file loop when every subprocess invocation
returns exit code zero: no error is raised; exactly the entries with a
truthy path produce a subprocess call, an allocation, and an output file,
in order; and the `command` variable ends up holding the command of the
last such entry (or its initial value when there is none). -/
theorem processFiles_all_zero (env : Env) (w : World) (out : Option String)
    (tgt rp fmt : String) (total : Nat)
    (hz : ∀ cmd, (w.run cmd).returncode = 0) :
    ∀ (files : List InputFile) (idx : Nat) (acc : LoopAcc),
      (processFiles env w out tgt rp fmt total files idx acc).2 = Option.none ∧
      (processFiles env w out tgt rp fmt total files idx acc).1.subprocCalls =
        acc.subprocCalls ++ (files.filter hasPath).map (expectedCall env tgt rp fmt) ∧
      (processFiles env w out tgt rp fmt total files idx acc).1.allocs.length =
        acc.allocs.length + (files.filter hasPath).length ∧
      (processFiles env w out tgt rp fmt total files idx acc).1.output_files.length =
        acc.output_files.length + (files.filter hasPath).length ∧
      (processFiles env w out tgt rp fmt total files idx acc).1.lastCommand =
        ((files.filter hasPath).map
          (fun f => some (mkCommand env tgt rp (f.path.getD "") fmt))).getLastD
          acc.lastCommand := by
  intro files
  induction files with
  | nil =>
    intro idx acc
    simp [processFiles]
  | cons f rest ih =>
    intro idx acc
    rcases hfp : f.path with _ | p
    · have hhp : hasPath f = false := by simp [hasPath, hfp]
      rw [processFiles, hfp]
      simpa [List.filter_cons, hhp] using ih (idx + 1) acc
    · by_cases hp : p = ""
      · have hhp : hasPath f = false := by simp [hasPath, hfp, hp]
        rw [processFiles, hfp]
        simp only [hp, if_pos rfl]
        simpa [List.filter_cons, hhp] using ih (idx + 1) acc
      · have hhp : hasPath f = true := by simp [hasPath, hfp, hp]
        rw [processFiles, hfp]
        simp only [hp, if_neg, ite_false]
        have hrc : ¬ (w.run (mkCommand env tgt rp p fmt)).returncode ≠ 0 :=
          not_ne_iff.mpr (hz (mkCommand env tgt rp p fmt))
        simp only [if_neg hrc]
        rcases ih (idx + 1) ⟨acc.allocs ++ [⟨out,
            pathStem (fileDisplayName f p) ++ "_chopchopgo", fmt,
            "openrelik:chopchopgo:" ++ fmt⟩],
          acc.subprocCalls ++ [⟨mkCommand env tgt rp p fmt, true, true, false⟩],
          acc.writes ++ [((w.createOutputFile out
            (pathStem (fileDisplayName f p) ++ "_chopchopgo") fmt
            ("openrelik:chopchopgo:" ++ fmt)).path,
            if (w.run (mkCommand env tgt rp p fmt)).stdout = "" then ""
            else (w.run (mkCommand env tgt rp p fmt)).stdout)],
          acc.events ++ [⟨idx, total, "Processed " ++ fileDisplayName f p⟩],
          acc.output_files ++ [w.createOutputFile out
            (pathStem (fileDisplayName f p) ++ "_chopchopgo") fmt
            ("openrelik:chopchopgo:" ++ fmt)],
          some (mkCommand env tgt rp p fmt)⟩ with ⟨ih1, ih2, ih3, ih4, ih5⟩
        refine ⟨ih1, ?_, ?_, ?_, ?_⟩
        · rw [ih2]
          simp [List.filter_cons, hhp, expectedCall, hfp, List.append_assoc]
        · rw [ih3]
          simp [List.filter_cons, hhp]
          omega
        · rw [ih4]
          simp [List.filter_cons, hhp]
          omega
        · have hfil : List.filter hasPath (f :: rest) = f :: List.filter hasPath rest := by
            simp [List.filter_cons, hhp]
          rw [ih5, hfil, List.map_cons, List.getLastD_cons, hfp]
          simp only [Option.getD_some]

/-- Unfolding of `analyze_logs` past the precondition checks: with a
non-empty file list and a resolving rules path, the outcome is determined
by the per-file loop started from the empty accumulator. -/
theorem analyze_logs_unfold (env : Env) (fs : String → Bool) (w : World)
    (pipe : Option String) (inFiles : Option (List InputFile))
    (out wf : Option String) (tc : Option TaskConfig) (rp : String)
    (hne : w.getInputFiles pipe (inFiles.getD []) ≠ [])
    (hres : _resolve_rules_path env fs (_determine_target env tc)
      (tc.getD emptyConfig).rules_path (tc.getD emptyConfig).rule_bundle =
      Except.ok (some rp)) :
    analyze_logs env fs w pipe inFiles out wf tc =
      (match processFiles env w out (_determine_target env tc) rp
          (_determine_output_format tc)
          (w.getInputFiles pipe (inFiles.getD [])).length
          (w.getInputFiles pipe (inFiles.getD [])) 1 emptyAcc with
       | (acc, some e) => ⟨acc, Except.error e⟩
       | (acc, Option.none) =>
         if acc.output_files = [] then
           ⟨acc, Except.error (PyError.runtimeError noOutputsMessage)⟩
         else
           ⟨acc, Except.ok ⟨acc.output_files, wf,
             String.intercalate " " (acc.lastCommand.getD []),
             ⟨_determine_output_format tc, _determine_target env tc, rp⟩⟩⟩) := by
  simp only [analyze_logs]
  rw [if_neg hne, hres]

/-- Containment is preserved by appending on the right. -/
theorem containsSub_append_right (a b pat : String) (h : containsSub a pat) :
    containsSub (a ++ b) pat := by
  rcases h with ⟨p, q, rfl⟩
  exact ⟨p, q ++ b, by simp [String.append_assoc]⟩

/-- Containment is preserved by appending on the left. -/
theorem containsSub_append_left (a b pat : String) (h : containsSub b pat) :
    containsSub (a ++ b) pat := by
  rcases h with ⟨p, q, rfl⟩
  exact ⟨a ++ p, q, by simp [String.append_assoc]⟩

/-- Every string contains itself. -/
theorem containsSub_self (s : String) : containsSub s s :=
  ⟨"", "", by simp⟩

/-- The parse-failure diagnosis contains the words "could not parse". -/
theorem parseFailure_contains_marker (tgt : String) :
    containsSub (parseFailureMessage tgt) "could not parse" := by
  rw [parseFailureMessage]
  refine containsSub_append_right _ _ _ (containsSub_append_right _ _ _
    (containsSub_append_right _ _ _ (containsSub_append_right _ _ _ ?_)))
  exact ⟨"ChopChopGo ",
    " the input log format. Verify the selected target (currently ", by decide⟩

/-- The parse-failure diagnosis names the selected target. -/
theorem parseFailure_contains_target (tgt : String) :
    containsSub (parseFailureMessage tgt) tgt := by
  rw [parseFailureMessage]
  exact containsSub_append_right _ _ _ (containsSub_append_right _ _ _
    (containsSub_append_left _ _ _ (containsSub_self tgt)))

/-- The generic exit error contains the exit code. -/
theorem generic_contains_code (rc : Int) (d : String) :
    containsSub (genericExitMessage rc d) (toString rc) := by
  rw [genericExitMessage]
  exact containsSub_append_right _ _ _ (containsSub_append_right _ _ _
    (containsSub_append_left _ _ _ (containsSub_self (toString rc))))

/-- The generic exit error contains the display name of the file being
processed. -/
theorem generic_contains_display (rc : Int) (d : String) :
    containsSub (genericExitMessage rc d) d := by
  rw [genericExitMessage]
  exact containsSub_append_left _ _ _ (containsSub_self d)

/-- C6: every subprocess call recorded by the task is exactly the argument
vector [binary, -target, target, -rules, rules_path, -file, file_path,
-out, output_format], in that order, for some input file with a truthy
path and the resolved configuration, and is run with capture_output and
text set and check unset (output, error, and status are captured, with no
exception raised on non-zero exit). -/
theorem C6_command_vector (env : Env) (fs : String → Bool) (w : World)
    (pipe : Option String) (inFiles : Option (List InputFile))
    (out wf : Option String) (tc : Option TaskConfig) :
    ∀ c ∈ (analyze_logs env fs w pipe inFiles out wf tc).trace.subprocCalls,
      ∃ rp, _resolve_rules_path env fs (_determine_target env tc)
          (tc.getD emptyConfig).rules_path (tc.getD emptyConfig).rule_bundle =
          Except.ok (some rp) ∧
        ∃ f ∈ w.getInputFiles pipe (inFiles.getD []), ∃ p, f.path = some p ∧ p ≠ "" ∧
          c = ⟨[env.BINARY_PATH, "-target", _determine_target env tc, "-rules", rp,
                "-file", p, "-out", _determine_output_format tc],
               true, true, false⟩ := by
  intro c hc
  by_cases hne : w.getInputFiles pipe (inFiles.getD []) = []
  · exfalso
    rw [analyze_logs_empty_files env fs w pipe inFiles out wf tc hne] at hc
    exact absurd hc (List.not_mem_nil c)
  · rcases hres : _resolve_rules_path env fs (_determine_target env tc)
        (tc.getD emptyConfig).rules_path (tc.getD emptyConfig).rule_bundle with e | orp
    · exfalso
      simp only [analyze_logs] at hc
      rw [if_neg hne, hres] at hc
      exact absurd hc (List.not_mem_nil c)
    · rcases orp with _ | rp
      · exfalso
        simp only [analyze_logs] at hc
        rw [if_neg hne, hres] at hc
        exact absurd hc (List.not_mem_nil c)
      · rw [analyze_logs_unfold env fs w pipe inFiles out wf tc rp hne hres] at hc
        rcases hpf : processFiles env w out (_determine_target env tc) rp
            (_determine_output_format tc)
            (w.getInputFiles pipe (inFiles.getD [])).length
            (w.getInputFiles pipe (inFiles.getD [])) 1 emptyAcc with ⟨acc, err⟩
        rw [hpf] at hc
        have hmem : c ∈ acc.subprocCalls := by
          rcases err with _ | e
          · rcases hout : acc.output_files with _ | ⟨o, os⟩ <;> simpa [hout] using hc
          · exact hc
        have hshape := processFiles_calls_shape env w out (_determine_target env tc)
          rp (_determine_output_format tc)
          (w.getInputFiles pipe (inFiles.getD [])).length
          (w.getInputFiles pipe (inFiles.getD [])) 1 emptyAcc c
          (by rw [hpf]; exact hmem)
        rcases hshape with h | ⟨f, hf, p, hfp, hp, hcall⟩
        · exact absurd h (List.not_mem_nil c)
        · exact ⟨rp, rfl, f, hf, p, hfp, hp, hcall⟩

/-- World used in the C6 witness: one input file, a successful run. -/
def wC6 : World :=
  ⟨fun _ _ => [⟨some "/logs/a.log", some "a.log"⟩],
   fun _ d e _ => ⟨"/out/" ++ d ++ "." ++ e⟩, fun _ => ⟨0, "[]", ""⟩⟩

/-- Filesystem used in the C6, C2, C10, C8, and C9 witnesses: only the
default syslog bundle directory exists. -/
def fsBuiltin : String → Bool :=
  fun p => p == "/opt/chopchopgo/rules/linux/builtin"

/-- Witness for C6: the single recorded call of a concrete run has the
stated shape. -/
theorem C6_command_vector_witness :
    ∃ rp, _resolve_rules_path defaultEnv fsBuiltin
        (_determine_target defaultEnv Option.none)
        (Option.none.getD emptyConfig).rules_path
        (Option.none.getD emptyConfig).rule_bundle = Except.ok (some rp) ∧
      ∃ f ∈ wC6.getInputFiles Option.none ((Option.none : Option (List InputFile)).getD []),
        ∃ p, f.path = some p ∧ p ≠ "" ∧
          (⟨["chopchopgo", "-target", "syslog", "-rules",
             "/opt/chopchopgo/rules/linux/builtin", "-file", "/logs/a.log",
             "-out", "json"], true, true, false⟩ : SubprocCall) =
          ⟨[defaultEnv.BINARY_PATH, "-target", _determine_target defaultEnv Option.none,
            "-rules", rp, "-file", p, "-out", _determine_output_format Option.none],
           true, true, false⟩ :=
  C6_command_vector defaultEnv fsBuiltin wC6 Option.none Option.none
    (some "/outdir") (some "wf") Option.none
    ⟨["chopchopgo", "-target", "syslog", "-rules",
      "/opt/chopchopgo/rules/linux/builtin", "-file", "/logs/a.log",
      "-out", "json"], true, true, false⟩ (by decide)

/-- Single-file run with a non-zero exit: the task raises the classified
runtime error, where the error text is stderr, falling back to stdout,
falling back to the empty string (tasks.py lines 234-247). -/
theorem analyze_logs_single_nonzero (env : Env) (fs : String → Bool) (w : World)
    (pipe : Option String) (inFiles : Option (List InputFile))
    (out wf : Option String) (tc : Option TaskConfig)
    (p d rp : String) (r : ProcResult)
    (hfiles : w.getInputFiles pipe (inFiles.getD []) = [⟨some p, some d⟩])
    (hp : p ≠ "") (hd : d ≠ "")
    (hrp : _resolve_rules_path env fs (_determine_target env tc)
      (tc.getD emptyConfig).rules_path (tc.getD emptyConfig).rule_bundle =
      Except.ok (some rp))
    (hrun : w.run (mkCommand env (_determine_target env tc) rp p
      (_determine_output_format tc)) = r)
    (hrc : r.returncode ≠ 0) :
    (analyze_logs env fs w pipe inFiles out wf tc).result =
      Except.error (PyError.runtimeError
        (if pyIn "Failed to match timestamp"
            (if r.stderr ≠ "" then r.stderr
             else if r.stdout ≠ "" then r.stdout else "") = true
         then parseFailureMessage (_determine_target env tc)
         else genericExitMessage r.returncode d)) := by
  rw [analyze_logs_unfold env fs w pipe inFiles out wf tc rp
    (by rw [hfiles]; simp) hrp, hfiles]
  rw [processFiles]
  simp only [fileDisplayName, hrun]
  rw [if_neg hp, if_pos hrc, if_neg hd]
  cases hmark : pyIn "Failed to match timestamp"
      (if r.stderr ≠ "" then r.stderr
       else if r.stdout ≠ "" then r.stdout else "") <;>
    simp [hmark]

/-- If the task succeeds, every subprocess invocation it recorded returned
exit code zero; equivalently, any invocation with a non-zero exit makes
the task fail. -/
theorem analyze_logs_ok_all_zero (env : Env) (fs : String → Bool) (w : World)
    (pipe : Option String) (inFiles : Option (List InputFile))
    (out wf : Option String) (tc : Option TaskConfig) (res : TaskResult)
    (hok : (analyze_logs env fs w pipe inFiles out wf tc).result = Except.ok res) :
    ∀ c ∈ (analyze_logs env fs w pipe inFiles out wf tc).trace.subprocCalls,
      (w.run c.argv).returncode = 0 := by
  intro c hc
  by_cases hne : w.getInputFiles pipe (inFiles.getD []) = []
  · rw [analyze_logs_empty_files env fs w pipe inFiles out wf tc hne] at hok
    exact absurd hok (by simp)
  · rcases hres : _resolve_rules_path env fs (_determine_target env tc)
        (tc.getD emptyConfig).rules_path (tc.getD emptyConfig).rule_bundle with e | orp
    · exfalso
      simp only [analyze_logs] at hok
      rw [if_neg hne, hres] at hok
      exact Except.noConfusion hok
    · rcases orp with _ | rp
      · exfalso
        rw [analyze_logs_no_rules env fs w pipe inFiles out wf tc hne hres] at hok
        exact Except.noConfusion hok
      · rw [analyze_logs_unfold env fs w pipe inFiles out wf tc rp hne hres]
          at hok hc
        rcases hpf : processFiles env w out (_determine_target env tc) rp
            (_determine_output_format tc)
            (w.getInputFiles pipe (inFiles.getD [])).length
            (w.getInputFiles pipe (inFiles.getD [])) 1 emptyAcc with ⟨acc, err⟩
        rw [hpf] at hok hc
        rcases err with _ | e
        · have hmem : c ∈ acc.subprocCalls := by
            rcases hout : acc.output_files with _ | ⟨o, os⟩ <;> simpa [hout] using hc
          have := processFiles_ok_run_zero env w out (_determine_target env tc) rp
            (_determine_output_format tc)
            (w.getInputFiles pipe (inFiles.getD [])).length
            (w.getInputFiles pipe (inFiles.getD [])) 1 emptyAcc
            (by rw [hpf]) c (by rw [hpf]; exact hmem)
          rcases this with h | h
          · exact absurd h (List.not_mem_nil c)
          · exact h
        · exact absurd hok (by simp)

/-- C2: when the subprocess for the (single) processed input file exits
non-zero, the task raises a runtime error: the parse-failure diagnosis
(containing "could not parse" and naming the selected target) when the
captured error text contains the "Failed to match timestamp" marker, and
otherwise the generic error containing the exit code and the display name
of the file being processed; in both cases the task fails (the result is
never a success). -/
theorem C2_nonzero_exit_classification (env : Env) (fs : String → Bool) (w : World)
    (pipe : Option String) (inFiles : Option (List InputFile))
    (out wf : Option String) (tc : Option TaskConfig)
    (p d rp : String) (r : ProcResult)
    (hfiles : w.getInputFiles pipe (inFiles.getD []) = [⟨some p, some d⟩])
    (hp : p ≠ "") (hd : d ≠ "")
    (hrp : _resolve_rules_path env fs (_determine_target env tc)
      (tc.getD emptyConfig).rules_path (tc.getD emptyConfig).rule_bundle =
      Except.ok (some rp))
    (hrun : w.run (mkCommand env (_determine_target env tc) rp p
      (_determine_output_format tc)) = r)
    (hrc : r.returncode ≠ 0) :
    (analyze_logs env fs w pipe inFiles out wf tc).result =
      Except.error (PyError.runtimeError
        (if pyIn "Failed to match timestamp"
            (if r.stderr ≠ "" then r.stderr
             else if r.stdout ≠ "" then r.stdout else "") = true
         then parseFailureMessage (_determine_target env tc)
         else genericExitMessage r.returncode d)) ∧
    containsSub (parseFailureMessage (_determine_target env tc)) "could not parse" ∧
    containsSub (parseFailureMessage (_determine_target env tc))
      (_determine_target env tc) ∧
    containsSub (genericExitMessage r.returncode d) (toString r.returncode) ∧
    containsSub (genericExitMessage r.returncode d) d ∧
    (∀ res, (analyze_logs env fs w pipe inFiles out wf tc).result ≠ Except.ok res) ∧
    (∀ (w2 : World) (pipe2 : Option String) (inF2 : Option (List InputFile))
        (out2 wf2 : Option String) (tc2 : Option TaskConfig) (res : TaskResult),
      (analyze_logs env fs w2 pipe2 inF2 out2 wf2 tc2).result = Except.ok res →
      ∀ c ∈ (analyze_logs env fs w2 pipe2 inF2 out2 wf2 tc2).trace.subprocCalls,
        (w2.run c.argv).returncode = 0) := by
  have h := analyze_logs_single_nonzero env fs w pipe inFiles out wf tc p d rp r
    hfiles hp hd hrp hrun hrc
  refine ⟨h, parseFailure_contains_marker _, parseFailure_contains_target _,
    generic_contains_code _ _, generic_contains_display _ _, fun res hok => ?_,
    fun w2 pipe2 inF2 out2 wf2 tc2 res hok =>
      analyze_logs_ok_all_zero env fs w2 pipe2 inF2 out2 wf2 tc2 res hok⟩
  rw [h] at hok
  exact Except.noConfusion hok

/-- World used in the C2 witness: the subprocess exits 1 with unrelated
stderr "boom". -/
def wC2 : World :=
  ⟨fun _ _ => [⟨some "/logs/a.log", some "a.log"⟩],
   fun _ d e _ => ⟨"/out/" ++ d ++ "." ++ e⟩, fun _ => ⟨1, "", "boom"⟩⟩

/-- Witness for C2: exit code 1 with stderr "boom" raises the generic
exit-code error naming the display name. -/
theorem C2_nonzero_exit_classification_witness :
    (analyze_logs defaultEnv fsBuiltin wC2 Option.none Option.none
        (some "/outdir") (some "wf") Option.none).result =
      Except.error (PyError.runtimeError (genericExitMessage 1 "a.log")) := by
  have h := (C2_nonzero_exit_classification defaultEnv fsBuiltin wC2 Option.none
    Option.none (some "/outdir") (some "wf") Option.none "/logs/a.log" "a.log"
    "/opt/chopchopgo/rules/linux/builtin" ⟨1, "", "boom"⟩ rfl (by decide)
    (by decide) (by decide) rfl (by decide)).1
  rw [h]
  decide

/-- C10: on a single-file non-zero exit, the error text used for failure
classification is the captured stderr when it is non-empty and the
captured stdout otherwise (the empty string when both are empty); hence a
failing run with empty stderr whose stdout contains the
"Failed to match timestamp" marker raises the parse-failure diagnosis,
not the generic exit-code error. -/
theorem C10_error_text_selection (env : Env) (fs : String → Bool) (w : World)
    (pipe : Option String) (inFiles : Option (List InputFile))
    (out wf : Option String) (tc : Option TaskConfig)
    (p d rp : String) (r : ProcResult)
    (hfiles : w.getInputFiles pipe (inFiles.getD []) = [⟨some p, some d⟩])
    (hp : p ≠ "") (hd : d ≠ "")
    (hrp : _resolve_rules_path env fs (_determine_target env tc)
      (tc.getD emptyConfig).rules_path (tc.getD emptyConfig).rule_bundle =
      Except.ok (some rp))
    (hrun : w.run (mkCommand env (_determine_target env tc) rp p
      (_determine_output_format tc)) = r)
    (hrc : r.returncode ≠ 0) :
    (analyze_logs env fs w pipe inFiles out wf tc).result =
      Except.error (PyError.runtimeError
        (if pyIn "Failed to match timestamp"
            (if r.stderr ≠ "" then r.stderr else r.stdout) = true
         then parseFailureMessage (_determine_target env tc)
         else genericExitMessage r.returncode d)) ∧
    (r.stderr = "" → pyIn "Failed to match timestamp" r.stdout = true →
      (analyze_logs env fs w pipe inFiles out wf tc).result =
        Except.error (PyError.runtimeError
          (parseFailureMessage (_determine_target env tc)))) := by
  have h := analyze_logs_single_nonzero env fs w pipe inFiles out wf tc p d rp r
    hfiles hp hd hrp hrun hrc
  have htext : (if r.stderr ≠ "" then r.stderr
      else if r.stdout ≠ "" then r.stdout else "") =
      (if r.stderr ≠ "" then r.stderr else r.stdout) := by
    by_cases h1 : r.stderr = "" <;> by_cases h2 : r.stdout = "" <;> simp [h1, h2]
  rw [htext] at h
  refine ⟨h, fun h1 h2 => ?_⟩
  rw [h]
  simp [h1, h2]

/-- World used in the C10 witness: the subprocess exits 1 with empty
stderr and the timestamp marker on stdout. -/
def wC10 : World :=
  ⟨fun _ _ => [⟨some "/logs/a.log", some "a.log"⟩],
   fun _ d e _ => ⟨"/out/" ++ d ++ "." ++ e⟩,
   fun _ => ⟨1, "log: Failed to match timestamp", ""⟩⟩

/-- Witness for C10: empty stderr with the marker on stdout yields the
parse-failure diagnosis. -/
theorem C10_error_text_selection_witness :
    (analyze_logs defaultEnv fsBuiltin wC10 Option.none Option.none
        (some "/outdir") (some "wf") Option.none).result =
      Except.error (PyError.runtimeError (parseFailureMessage "syslog")) :=
  (C10_error_text_selection defaultEnv fsBuiltin wC10 Option.none
    Option.none (some "/outdir") (some "wf") Option.none "/logs/a.log" "a.log"
    "/opt/chopchopgo/rules/linux/builtin" ⟨1, "log: Failed to match timestamp", ""⟩
    rfl (by decide) (by decide) (by decide) rfl (by decide)).2 rfl (by decide)

/-- C8: on a single-file run whose subprocess exits zero, one output
artifact is allocated with display name `stem(display_name) ++
"_chopchopgo"`, extension equal to the resolved output format, and a
data-type tag embedding the format; the captured stdout (possibly empty)
is written verbatim to the allocated artifact's path; and the task
succeeds regardless of any stderr content, which is only logged. -/
theorem C8_success_artifact (env : Env) (fs : String → Bool) (w : World)
    (pipe : Option String) (inFiles : Option (List InputFile))
    (out wf : Option String) (tc : Option TaskConfig)
    (p d rp : String) (r : ProcResult)
    (hfiles : w.getInputFiles pipe (inFiles.getD []) = [⟨some p, some d⟩])
    (hp : p ≠ "") (hd : d ≠ "")
    (hrp : _resolve_rules_path env fs (_determine_target env tc)
      (tc.getD emptyConfig).rules_path (tc.getD emptyConfig).rule_bundle =
      Except.ok (some rp))
    (hrun : w.run (mkCommand env (_determine_target env tc) rp p
      (_determine_output_format tc)) = r)
    (hrc : r.returncode = 0) :
    (analyze_logs env fs w pipe inFiles out wf tc).trace.allocs =
      [⟨out, pathStem d ++ "_chopchopgo", _determine_output_format tc,
        "openrelik:chopchopgo:" ++ _determine_output_format tc⟩] ∧
    (analyze_logs env fs w pipe inFiles out wf tc).trace.writes =
      [((w.createOutputFile out (pathStem d ++ "_chopchopgo")
          (_determine_output_format tc)
          ("openrelik:chopchopgo:" ++ _determine_output_format tc)).path,
        r.stdout)] ∧
    ∃ res, (analyze_logs env fs w pipe inFiles out wf tc).result = Except.ok res := by
  rw [analyze_logs_unfold env fs w pipe inFiles out wf tc rp
    (by rw [hfiles]; simp) hrp, hfiles]
  rw [processFiles]
  simp only [fileDisplayName, hrun]
  rw [if_neg hp, if_neg (not_ne_iff.mpr hrc), if_neg hd]
  rw [processFiles]
  have hdata : (if r.stdout = "" then "" else r.stdout) = r.stdout := by
    by_cases h2 : r.stdout = "" <;> simp [h2]
  rw [hdata]
  refine ⟨by simp [emptyAcc], by simp [emptyAcc],
    ⟨⟨[w.createOutputFile out (pathStem d ++ "_chopchopgo")
        (_determine_output_format tc)
        ("openrelik:chopchopgo:" ++ _determine_output_format tc)], wf,
      String.intercalate " " (mkCommand env (_determine_target env tc) rp p
        (_determine_output_format tc)),
      ⟨_determine_output_format tc, _determine_target env tc, rp⟩⟩, ?_⟩⟩
  simp [emptyAcc]

/-- World used in the C8 witness: one input file, zero exit with a JSON
payload on stdout and a warning on stderr. -/
def wC8 : World :=
  ⟨fun _ _ => [⟨some "/logs/a.log", some "a.log"⟩],
   fun _ d e _ => ⟨"/out/" ++ d ++ "." ++ e⟩,
   fun _ => ⟨0, "[]", "some warning"⟩⟩

/-- Witness for C8: the concrete successful run allocates the expected
artifact, writes the stdout payload verbatim, and succeeds despite the
non-empty stderr. -/
theorem C8_success_artifact_witness :
    (analyze_logs defaultEnv fsBuiltin wC8 Option.none Option.none
        (some "/outdir") (some "wf") Option.none).trace.allocs =
      [⟨some "/outdir", pathStem "a.log" ++ "_chopchopgo",
        _determine_output_format Option.none,
        "openrelik:chopchopgo:" ++ _determine_output_format Option.none⟩] ∧
    (analyze_logs defaultEnv fsBuiltin wC8 Option.none Option.none
        (some "/outdir") (some "wf") Option.none).trace.writes =
      [((wC8.createOutputFile (some "/outdir") (pathStem "a.log" ++ "_chopchopgo")
          (_determine_output_format Option.none)
          ("openrelik:chopchopgo:" ++ _determine_output_format Option.none)).path,
        "[]")] ∧
    ∃ res, (analyze_logs defaultEnv fsBuiltin wC8 Option.none Option.none
        (some "/outdir") (some "wf") Option.none).result = Except.ok res :=
  C8_success_artifact defaultEnv fsBuiltin wC8 Option.none Option.none
    (some "/outdir") (some "wf") Option.none "/logs/a.log" "a.log"
    "/opt/chopchopgo/rules/linux/builtin" ⟨0, "[]", "some warning"⟩
    rfl (by decide) (by decide) (by decide) rfl rfl

/-- C9: with all-zero subprocess exits, input entries lacking a truthy
path are skipped without aborting the batch — exactly the entries with a
path produce a subprocess call and an allocation; if zero artifacts were
produced the task fails with the no-outputs error; and otherwise it
returns a result with a non-empty output-file list, metadata equal to the
resolved {output_format, target, rules_path}, and the command string of
the last executed command. -/
theorem C9_skip_and_aggregate (env : Env) (fs : String → Bool) (w : World)
    (pipe : Option String) (inFiles : Option (List InputFile))
    (out wf : Option String) (tc : Option TaskConfig) (rp : String)
    (hne : w.getInputFiles pipe (inFiles.getD []) ≠ [])
    (hrp : _resolve_rules_path env fs (_determine_target env tc)
      (tc.getD emptyConfig).rules_path (tc.getD emptyConfig).rule_bundle =
      Except.ok (some rp))
    (hz : ∀ cmd, (w.run cmd).returncode = 0) :
    (analyze_logs env fs w pipe inFiles out wf tc).trace.subprocCalls.length =
      ((w.getInputFiles pipe (inFiles.getD [])).filter hasPath).length ∧
    (analyze_logs env fs w pipe inFiles out wf tc).trace.allocs.length =
      ((w.getInputFiles pipe (inFiles.getD [])).filter hasPath).length ∧
    ((w.getInputFiles pipe (inFiles.getD [])).filter hasPath = [] →
      (analyze_logs env fs w pipe inFiles out wf tc).result =
        Except.error (PyError.runtimeError noOutputsMessage)) ∧
    (∀ flast, ((w.getInputFiles pipe (inFiles.getD [])).filter hasPath).getLast? =
        some flast →
      ∃ res, (analyze_logs env fs w pipe inFiles out wf tc).result =
          Except.ok res ∧
        res.output_files ≠ [] ∧
        res.meta = ⟨_determine_output_format tc, _determine_target env tc, rp⟩ ∧
        res.command = String.intercalate " "
          (mkCommand env (_determine_target env tc) rp (flast.path.getD "")
            (_determine_output_format tc))) := by
  have hall := processFiles_all_zero env w out (_determine_target env tc) rp
    (_determine_output_format tc) (w.getInputFiles pipe (inFiles.getD [])).length hz
    (w.getInputFiles pipe (inFiles.getD [])) 1 emptyAcc
  rw [analyze_logs_unfold env fs w pipe inFiles out wf tc rp hne hrp]
  rcases hpf : processFiles env w out (_determine_target env tc) rp
      (_determine_output_format tc) (w.getInputFiles pipe (inFiles.getD [])).length
      (w.getInputFiles pipe (inFiles.getD [])) 1 emptyAcc with ⟨acc, err⟩
  rw [hpf] at hall
  obtain ⟨h1, h2, h3, h4, h5⟩ := hall
  have herr : err = Option.none := h1
  subst herr
  have hcalls : acc.subprocCalls =
      ((w.getInputFiles pipe (inFiles.getD [])).filter hasPath).map
        (expectedCall env (_determine_target env tc) rp
          (_determine_output_format tc)) := by
    rw [show acc = ((acc, (Option.none : Option PyError)).1) from rfl, h2]
    simp [emptyAcc]
  have halloc : acc.allocs.length =
      ((w.getInputFiles pipe (inFiles.getD [])).filter hasPath).length := by
    rw [show acc = ((acc, (Option.none : Option PyError)).1) from rfl, h3]
    simp [emptyAcc]
  have hofl : acc.output_files.length =
      ((w.getInputFiles pipe (inFiles.getD [])).filter hasPath).length := by
    rw [show acc = ((acc, (Option.none : Option PyError)).1) from rfl, h4]
    simp [emptyAcc]
  refine ⟨?_, ?_, fun hfil => ?_, fun flast hlast => ?_⟩
  · by_cases hout : acc.output_files = [] <;>
      simp [hout, hcalls]
  · by_cases hout : acc.output_files = [] <;>
      simp [hout, halloc]
  · have hout : acc.output_files = [] :=
      List.length_eq_zero.mp (by rw [hofl, hfil]; rfl)
    simp [hout]
  · have hfilne : (w.getInputFiles pipe (inFiles.getD [])).filter hasPath ≠ [] := by
      intro h0
      rw [h0] at hlast
      exact Option.noConfusion hlast
    have hout : acc.output_files ≠ [] := by
      intro h0
      apply hfilne
      apply List.length_eq_zero.mp
      rw [← hofl, h0]
      rfl
    have hcmd : acc.lastCommand = some
        (mkCommand env (_determine_target env tc) rp (flast.path.getD "")
          (_determine_output_format tc)) := by
      rw [show acc = ((acc, (Option.none : Option PyError)).1) from rfl, h5]
      exact getLastD_map_of_getLast? _ _ flast _ hlast
    refine ⟨⟨acc.output_files, wf,
      String.intercalate " " (acc.lastCommand.getD []),
      ⟨_determine_output_format tc, _determine_target env tc, rp⟩⟩, ?_, hout, rfl, ?_⟩
    · simp [hout]
    · rw [hcmd]
      rfl

/-- World used in the C9 witness: a pathless entry followed by a valid
one; the subprocess always exits zero. -/
def wC9 : World :=
  ⟨fun _ _ => [⟨Option.none, some "nopath"⟩, ⟨some "/logs/b.log", Option.none⟩],
   fun _ d e _ => ⟨"/out/" ++ d ++ "." ++ e⟩, fun _ => ⟨0, "data", ""⟩⟩

/-- Witness for C9: the pathless entry is skipped (one subprocess call for
two input entries) and the batch still succeeds with the resolved
metadata and the last executed command string. -/
theorem C9_skip_and_aggregate_witness :
    (analyze_logs defaultEnv fsBuiltin wC9 Option.none Option.none
        (some "/outdir") (some "wf") Option.none).trace.subprocCalls.length = 1 ∧
    ∃ res, (analyze_logs defaultEnv fsBuiltin wC9 Option.none Option.none
        (some "/outdir") (some "wf") Option.none).result = Except.ok res ∧
      res.output_files ≠ [] ∧
      res.meta = ⟨"json", "syslog", "/opt/chopchopgo/rules/linux/builtin"⟩ ∧
      res.command = "chopchopgo -target syslog -rules /opt/chopchopgo/rules/linux/builtin -file /logs/b.log -out json" := by
  have h := C9_skip_and_aggregate defaultEnv fsBuiltin wC9 Option.none Option.none
    (some "/outdir") (some "wf") Option.none "/opt/chopchopgo/rules/linux/builtin"
    (by decide) (by decide) (fun _ => rfl)
  refine ⟨?_, ?_⟩
  · rw [h.1]
    decide
  · obtain ⟨res, hres, hne2, hmeta, hcmd⟩ :=
      h.2.2.2 ⟨some "/logs/b.log", Option.none⟩ (by decide)
    exact ⟨res, hres, hne2, by rw [hmeta]; decide, by rw [hcmd]; decide⟩
